import Mathlib

/-!
Shallow embedding of the rag-frontend client (TypeScript/React) and proofs of
its specification claims.  Definitions are translated from the source files:
`src/services/api.ts`, `src/services/auth.ts`, `src/store/authStore.ts`,
`src/components/FileList/FileList.tsx`, `src/components/FileUpload/FileUpload.tsx`,
`src/components/Dashboard/Dashboard.tsx` and `src/components/Chat/ChatInterface.tsx`.
-/

namespace RagFrontend

/-! ## Data model (src/types.ts) -/

/-- User profile, as in `src/types.ts`. -/
structure User where
  id : Nat
  username : String
  email : String
  first_name : String
  last_name : String
deriving DecidableEq, Repr

/-- Token pair returned by login/register/refresh. -/
structure AuthTokens where
  access : String
  refresh : String
deriving DecidableEq, Repr

/-- Payload of a successful login or register call. -/
structure AuthResponse where
  user : User
  tokens : AuthTokens
deriving DecidableEq, Repr

/-- The browser localStorage slots the client uses: the keys
`access_token`, `refresh_token` and `user`.  The `user` slot holds
`JSON.stringify` of the profile; since stringify/parse of this flat record is
an identity round trip, the slot is modelled as holding the parsed value. -/
structure Storage where
  access_token : Option String
  refresh_token : Option String
  user : Option User
deriving DecidableEq, Repr

/-! ## Authenticated request client (src/services/api.ts, response interceptor)

The interceptor is driven by the outside world: the HTTP status each send of
the original request receives, and the result of the refresh endpoint.  Both
are supplied as an explicit `World` so the interceptor's branching can be
traced exactly as written in `api.ts` lines 53-101. -/

/-- Result of the refresh endpoint: a new access token, or an error value. -/
structure World where
  /-- HTTP status of the n-th send of the original request (0 = first send). -/
  status : Nat → Nat
  /-- Result of `POST /auth/refresh/` for a given refresh token. -/
  refresh : String → Except String String

/-- axios treats a 2xx status as success; anything else reaches the error
interceptor. -/
def isHttpSuccess (s : Nat) : Bool := 200 ≤ s && s < 300

/-- What the caller of the request finally observes. -/
inductive Outcome where
  /-- The request resolved with a 2xx status. -/
  | success (status : Nat)
  /-- An HTTP error status was propagated (`Promise.reject(error)`). -/
  | httpError (status : Nat)
  /-- The refresh call failed and its error was propagated
      (`Promise.reject(refreshError)`). -/
  | refreshError (e : String)
deriving DecidableEq, Repr

/-- Observable result of running a request through the client. -/
structure RunResult where
  outcome : Outcome
  store : Storage
  /-- number of calls made to `POST /auth/refresh/` -/
  refreshCalls : Nat
  /-- number of re-sends of the original request -/
  retryCalls : Nat
  /-- whether `window.location.href = '/login'` was executed -/
  redirectedToLogin : Bool
  /-- the `_retry` flag on the original request config after handling -/
  retryFlag : Bool
  /-- Authorization header set on the re-sent request, if any -/
  retryAuthHeader : Option String
deriving DecidableEq, Repr

/-- `localStorage.removeItem` on all three credential keys
(api.ts lines 91-93). -/
def clearedStorage : Storage := ⟨none, none, none⟩

/-- The re-sent original request (`this.client(originalRequest)` at api.ts
line 84).  Its config now has `_retry = true`, so on any error status —
401 included — the interceptor condition at line 63 is false and the error is
propagated unmodified; no further refresh can happen. -/
def runRetriedRequest (w : World) (st : Storage) (hdr : Option String) : RunResult :=
  let s := w.status 1
  if isHttpSuccess s then
    ⟨.success s, st, 0, 0, false, true, hdr⟩
  else
    ⟨.httpError s, st, 0, 0, false, true, hdr⟩

/-- One request through the client of `api.ts`, with the response error
interceptor of lines 53-101 applied to the first send:
if the first send succeeds, its result is returned; on a 401 with
`_retry` unset the interceptor marks `_retry := true`, reads the refresh
token, and either propagates the 401 (token absent), or calls the refresh
endpoint: on refresh success it persists the new access token and re-sends
the original request with the new bearer header, forwarding that result; on
refresh failure it clears all three storage keys, redirects to `/login` and
propagates the refresh error.  Any non-401 error is propagated unmodified. -/
def runRequest (w : World) (st : Storage) : RunResult :=
  let s := w.status 0
  if isHttpSuccess s then
    ⟨.success s, st, 0, 0, false, false, none⟩
  else if s = 401 then
    -- originalRequest._retry = true (line 65), then read the refresh token
    match st.refresh_token with
    | none =>
      -- '[Auth] No refresh token available': fall through to reject(error)
      ⟨.httpError s, st, 0, 0, false, true, none⟩
    | some rt =>
      match w.refresh rt with
      | .ok access =>
        let st1 : Storage := { st with access_token := some access }
        let r := runRetriedRequest w st1 (some ("Bearer " ++ access))
        { r with refreshCalls := r.refreshCalls + 1, retryCalls := r.retryCalls + 1 }
      | .error e =>
        ⟨.refreshError e, clearedStorage, 1, 0, true, true, none⟩
  else
    ⟨.httpError s, st, 0, 0, false, false, none⟩

/-! ## Auth session service (src/services/auth.ts) and session store
(src/store/authStore.ts) -/

/-- `authService.setAuthData` (auth.ts lines 36-41): three
`localStorage.setItem` calls. -/
def setAuthData (data : AuthResponse) (st : Storage) : Storage :=
  { st with
      access_token := some data.tokens.access
      refresh_token := some data.tokens.refresh
      user := some data.user }

/-- `authService.login` (auth.ts lines 23-34), success path: the server
response is persisted via `setAuthData` and returned unchanged. -/
def authServiceLogin (resp : AuthResponse) (st : Storage) : AuthResponse × Storage :=
  (resp, setAuthData resp st)

/-- `authService.isAuthenticated` (auth.ts lines 50-54):
`!!localStorage.getItem('access_token')`. -/
def isAuthenticated (st : Storage) : Bool := st.access_token.isSome

/-- `authService.getCurrentUser` (auth.ts lines 56-70): read and parse the
`user` slot; absence yields null. -/
def getCurrentUser (st : Storage) : Option User := st.user

/-- The `{user, isAuthenticated}` pair held by the zustand auth store. -/
structure AuthStoreState where
  user : Option User
  isAuthenticated : Bool
deriving DecidableEq, Repr

/-- `checkAuth` (authStore.ts lines 52-58): re-derive the session state from
the two storage reads alone. -/
def checkAuth (st : Storage) : AuthStoreState :=
  ⟨getCurrentUser st, isAuthenticated st⟩

/-- Observable side effects of the client's operations. -/
inductive Effect where
  | network (endpoint : String)
  | storageRead (key : String)
  | storageWrite (key : String)
  | storageRemove (key : String)
deriving DecidableEq, Repr

/-- Effects performed by `checkAuth`, in order, traced from the code: a call
to `authService.getCurrentUser` reads the `user` slot and a call to
`authService.isAuthenticated` reads the `access_token` slot; no HTTP request
is issued anywhere on this path. -/
def checkAuthEffects : List Effect :=
  [.storageRead "user", .storageRead "access_token"]

/-! ## Upload validation (src/components/FileUpload/FileUpload.tsx,
handleFile, lines 41-68) -/

/-- The fixed size limit: `10 * 1024 * 1024` bytes. -/
def maxUploadSize : Nat := 10 * 1024 * 1024

/-- The MIME type allow-list of FileUpload.tsx lines 57-63. -/
def allowedTypes : List String :=
  ["application/pdf",
   "text/plain",
   "application/vnd.openxmlformats-officedocument.wordprocessingml.document",
   "image/png",
   "image/jpeg"]

/-- Error string reported for an oversized file. -/
def sizeErrorText : String := "File size exceeds 10MB limit"

/-- Error string reported for a disallowed MIME type. -/
def typeErrorText : String := "File type not supported. Allowed: PDF, TXT, DOCX, PNG, JPEG"

/-- What the validation prologue of `handleFile` decides: either an error is
reported through `onError` and the handler returns before any network
activity, or control reaches the upload pipeline (presign request etc.). -/
structure ValidationResult where
  reportedError : Option String
  networkAttempted : Bool
deriving DecidableEq, Repr

/-- The validation prologue of `handleFile`: the size check (lines 49-54)
runs first and returns early; then the type check (lines 57-68) runs and
returns early; only past both does the handler start the network pipeline. -/
def handleFileValidation (size : Nat) (mime : String) : ValidationResult :=
  if size > maxUploadSize then
    ⟨some sizeErrorText, false⟩
  else if !(allowedTypes.contains mime) then
    ⟨some typeErrorText, false⟩
  else
    ⟨none, true⟩

/-! ## Chat data model (src/types.ts) -/

inductive Role where
  | user
  | assistant
deriving DecidableEq, Repr

/-- Citation attached to an assistant message. -/
structure Citation where
  filename : String
  page_number : Option Nat
deriving DecidableEq, Repr

/-- Chat message.  Text content is modelled as a list of characters so that
the character-indexed reveal of ChatInterface.tsx can be stated directly. -/
structure Message where
  id : Nat
  role : Role
  content : List Char
  file_ids : List Nat
  citations : List Citation
  created_at : String
deriving DecidableEq, Repr

/-- Response of `POST /chat/`: the adopted conversation id, the
server-confirmed user message, the assistant message, and its citations. -/
structure ChatResponse where
  conversation_id : Nat
  message : Message
  response : Message
  citations : List Citation
deriving DecidableEq, Repr

/-- Conversation returned by `GET /chat/history/:id/`. -/
structure Conversation where
  id : Nat
  created_at : String
  updated_at : String
  messages : List Message
deriving DecidableEq, Repr

/-! ## Chat session controller (ChatInterface.tsx) -/

/-- The slice of ChatInterface state the history loader touches. -/
structure ChatState where
  messages : List Message
  currentConversationId : Option Nat
deriving DecidableEq, Repr

/-- `loadConversationHistory` (ChatInterface.tsx lines 87-103): on success
the fetched messages replace the local sequence and the id is adopted; the
catch block only logs, so on failure the state is returned untouched. -/
def loadConversationHistory (result : Except String Conversation) (convId : Nat)
    (s : ChatState) : ChatState :=
  match result with
  | .ok conv => { s with messages := conv.messages, currentConversationId := some convId }
  | .error _ => s

/-- Conversation-id adoption after a successful send (ChatInterface.tsx
lines 133-136): if the returned id differs from the tracked one, adopt it
and fire `onConversationChange`; the Bool records whether the collaborator
was notified. -/
def adoptConversation (current : Option Nat) (respId : Nat) : Option Nat × Bool :=
  if some respId = current then (current, false) else (some respId, true)

/-- The reconciliation of the message sequence on server success
(ChatInterface.tsx lines 139-147): starting from the sequence holding the
optimistic temporary message, drop every message carrying the temporary id
and append the server-confirmed user message plus an assistant placeholder
(the server assistant message with empty content, citations attached). -/
def handleSendSuccess (prev : List Message) (temp : Message) (resp : ChatResponse) :
    List Message :=
  let afterOptimistic := prev ++ [temp]
  let filtered := afterOptimistic.filter (fun m => m.id != temp.id)
  let assistantMsg : Message := { resp.response with citations := resp.citations, content := [] }
  filtered ++ [resp.message, assistantMsg]

/-- The fixed apology text of the catch block (ChatInterface.tsx line 182). -/
def errorAssistantText : List Char :=
  "Sorry, I encountered an error. Please try again.".toList

/-- The catch block of `handleSend` (ChatInterface.tsx lines 175-189): build
a fixed-text assistant message (the caught error value is only logged and
never read into the state update), drop the optimistic temporary message,
and append the apology. -/
def handleSendFailure (prev : List Message) (temp : Message) (errId : Nat)
    (errCreated : String) : List Message :=
  let afterOptimistic := prev ++ [temp]
  let errorMessage : Message := ⟨errId, .assistant, errorAssistantText, [], [], errCreated⟩
  (afterOptimistic.filter (fun m => m.id != temp.id)) ++ [errorMessage]

/-! ## Pseudo-streaming reveal (ChatInterface.tsx lines 149-174) -/

/-- Chunk size of the reveal: `Math.max(10, Math.floor(fullText.length / 30))`. -/
def streamStep (len : Nat) : Nat := max 10 (len / 30)

/-- The `index` variable after a number of interval ticks: it starts at 0 and
each tick executes `index = Math.min(fullText.length, index + step)`. -/
def revealIndex (len : Nat) : Nat → Nat
  | 0 => 0
  | t + 1 => min len (revealIndex len t + streamStep len)

/-- The content shown after a number of ticks: `fullText.slice(0, index)`. -/
def revealedText (fullText : List Char) (t : Nat) : List Char :=
  fullText.take (revealIndex fullText.length t)

/-- Number of ticks until the reveal completes: the least t with
t * step ≥ len, i.e. the ceiling of len / step. -/
def streamTicksToComplete (len : Nat) : Nat :=
  (len + streamStep len - 1) / streamStep len

/-- Whether the interval is still scheduled after a number of ticks: the
callback clears itself exactly when `index >= fullText.length`
(ChatInterface.tsx lines 169-172). -/
def timerActiveAfter (len t : Nat) : Bool := revealIndex len t < len

/-! ## Chat view lifecycle (ChatInterface.tsx) -/

/-- The reveal task held by `streamingIntervalRef` while an interval is
scheduled: the full assistant text, the id of the assistant message being
filled in (`response.response.id`), and the current `index`. -/
structure StreamTask where
  fullText : List Char
  targetId : Nat
  index : Nat
deriving DecidableEq, Repr

/-- ChatInterface component state relevant to teardown: whether the view is
mounted, the message sequence, and the scheduled reveal interval (if any). -/
structure ChatComponent where
  mounted : Bool
  messages : List Message
  streamingInterval : Option StreamTask
deriving DecidableEq, Repr

/-- One firing of the interval callback of ChatInterface.tsx lines 161-173:
advance `index` by the step (capped at the text length), rewrite the target
message's content to the revealed slice, and clear the interval exactly when
the whole text is shown.  The callback runs whenever the interval is still
scheduled — nothing in it consults whether the component is mounted. -/
def applyStreamTick (c : ChatComponent) : ChatComponent :=
  match c.streamingInterval with
  | none => c
  | some task =>
    let idx := min task.fullText.length (task.index + streamStep task.fullText.length)
    let shown := task.fullText.take idx
    let msgs := c.messages.map (fun m =>
      if m.id == task.targetId then { m with content := shown } else m)
    if task.fullText.length ≤ idx then
      { c with messages := msgs, streamingInterval := none }
    else
      { c with messages := msgs, streamingInterval := some { task with index := idx } }

/-- Unmounting ChatInterface as written: the component's two `useEffect`
hooks (the scroll-to-bottom effect at lines 76-78 and the
conversation-change effect at lines 80-85) both return no cleanup function,
so React runs no teardown code for this component; in particular nothing
clears `streamingIntervalRef.current`.  Only the mounted flag drops. -/
def unmountChatInterface (c : ChatComponent) : ChatComponent :=
  { c with mounted := false }

/-! ## File list and selection (FileList.tsx, Dashboard.tsx) -/

inductive FileStatus where
  | pending
  | uploaded
  | processing
  | ready
  | failed
  | deletion_failed
deriving DecidableEq, Repr

inductive IngestionStatus where
  | not_started
  | in_progress
  | partial_done
  | complete
  | failed
deriving DecidableEq, Repr

/-- File record as listed by the backend (src/types.ts). -/
structure FileAsset where
  id : Nat
  filename : String
  file_type : String
  size : Nat
  status : FileStatus
  ingestion_status : IngestionStatus
deriving DecidableEq, Repr

/-- Response of `GET /files/` (src/types.ts). -/
structure FileListResponse where
  results : List FileAsset
  count : Nat
  page : Nat
  page_size : Nat
  total_pages : Nat
deriving DecidableEq, Repr

/-- The joint state of FileList (its fetched `files`) and Dashboard (its
`selectedFiles` id list, passed down as a prop). -/
structure FileViewState where
  files : List FileAsset
  page : Nat
  selectedFiles : List Nat
deriving DecidableEq, Repr

/-- `loadFiles` (FileList.tsx lines 37-52), success path: `setFiles`,
`setPage` and the refs are updated from the response.  No statement in
`loadFiles` touches the selection. -/
def loadFilesApply (resp : FileListResponse) (s : FileViewState) : FileViewState :=
  { s with files := resp.results, page := resp.page }

/-- Dashboard's `handleFileDelete` (Dashboard.tsx lines 33-35):
`prev.filter((id) => id !== fileId)`. -/
def handleFileDelete (fileId : Nat) (sel : List Nat) : List Nat :=
  sel.filter (fun i => i != fileId)

/-- `confirmDelete` (FileList.tsx lines 114-124), success path: after the
DELETE round-trip, reload the current page, then call `onFileDelete(fileId)`
which prunes exactly that id from the Dashboard selection. -/
def confirmDeleteApply (fileId : Nat) (resp : FileListResponse) (s : FileViewState) :
    FileViewState :=
  let s1 := loadFilesApply resp s
  { s1 with selectedFiles := handleFileDelete fileId s1.selectedFiles }

/-! ## Helper lemmas -/

lemma runRetriedRequest_retryFlag (w : World) (st : Storage) (hdr : Option String) :
    (runRetriedRequest w st hdr).retryFlag = true := by
  unfold runRetriedRequest
  by_cases hs : isHttpSuccess (w.status 1) <;> simp [hs]

lemma runRetriedRequest_refreshCalls (w : World) (st : Storage) (hdr : Option String) :
    (runRetriedRequest w st hdr).refreshCalls = 0 := by
  unfold runRetriedRequest
  by_cases hs : isHttpSuccess (w.status 1) <;> simp [hs]

lemma runRetriedRequest_retryCalls (w : World) (st : Storage) (hdr : Option String) :
    (runRetriedRequest w st hdr).retryCalls = 0 := by
  unfold runRetriedRequest
  by_cases hs : isHttpSuccess (w.status 1) <;> simp [hs]

lemma runRetriedRequest_store (w : World) (st : Storage) (hdr : Option String) :
    (runRetriedRequest w st hdr).store = st := by
  unfold runRetriedRequest
  by_cases hs : isHttpSuccess (w.status 1) <;> simp [hs]

lemma runRetriedRequest_retryAuthHeader (w : World) (st : Storage) (hdr : Option String) :
    (runRetriedRequest w st hdr).retryAuthHeader = hdr := by
  unfold runRetriedRequest
  by_cases hs : isHttpSuccess (w.status 1) <;> simp [hs]

lemma isHttpSuccess_401 : isHttpSuccess 401 = false := rfl

lemma runRequest_of_401_noToken (w : World) (st : Storage) (h : w.status 0 = 401)
    (hrt : st.refresh_token = none) :
    runRequest w st = ⟨.httpError 401, st, 0, 0, false, true, none⟩ := by
  simp [runRequest, h, hrt, isHttpSuccess_401]

lemma runRequest_of_401_refreshOk (w : World) (st : Storage) (rt a : String)
    (h : w.status 0 = 401) (hrt : st.refresh_token = some rt)
    (hre : w.refresh rt = .ok a) :
    runRequest w st =
      { runRetriedRequest w { st with access_token := some a } (some ("Bearer " ++ a)) with
          refreshCalls := 1, retryCalls := 1 } := by
  simp [runRequest, h, hrt, hre, isHttpSuccess_401,
    runRetriedRequest_refreshCalls, runRetriedRequest_retryCalls]

lemma runRequest_of_401_refreshErr (w : World) (st : Storage) (rt e : String)
    (h : w.status 0 = 401) (hrt : st.refresh_token = some rt)
    (hre : w.refresh rt = .error e) :
    runRequest w st = ⟨.refreshError e, clearedStorage, 1, 0, true, true, none⟩ := by
  simp [runRequest, h, hrt, hre, isHttpSuccess_401]

/-! ## Claim theorems -/

/-- C1: for a request that receives HTTP 401 and has not been retried yet,
the interceptor marks it as retried; with no stored refresh token it makes
zero refresh calls and propagates the original 401; with a stored refresh
token that refreshes successfully it makes exactly one refresh call,
persists the new access token, re-sends the original request exactly once
with the new bearer token and forwards that retry's result; and in every
case at most one refresh attempt happens per originating request. -/
theorem tokenRefresh_single_attempt (w : World) (st : Storage) (h : w.status 0 = 401) :
    (runRequest w st).retryFlag = true
    ∧ (st.refresh_token = none →
        (runRequest w st).refreshCalls = 0
          ∧ (runRequest w st).outcome = .httpError 401)
    ∧ (∀ rt a : String, st.refresh_token = some rt → w.refresh rt = .ok a →
        (runRequest w st).refreshCalls = 1
          ∧ (runRequest w st).retryCalls = 1
          ∧ (runRequest w st).store.access_token = some a
          ∧ (runRequest w st).retryAuthHeader = some ("Bearer " ++ a)
          ∧ (runRequest w st).outcome =
              (runRetriedRequest w { st with access_token := some a }
                (some ("Bearer " ++ a))).outcome)
    ∧ (∀ (w2 : World) (st2 : Storage), (runRequest w2 st2).refreshCalls ≤ 1) := by
  refine ⟨?_, ?_, ?_, ?_⟩
  · cases hrt : st.refresh_token with
    | none => rw [runRequest_of_401_noToken w st h hrt]
    | some rt =>
      cases hre : w.refresh rt with
      | error e => rw [runRequest_of_401_refreshErr w st rt e h hrt hre]
      | ok a =>
        rw [runRequest_of_401_refreshOk w st rt a h hrt hre]
        exact runRetriedRequest_retryFlag ..
  · intro hrt
    rw [runRequest_of_401_noToken w st h hrt]
    exact ⟨rfl, rfl⟩
  · intro rt a hrt hre
    rw [runRequest_of_401_refreshOk w st rt a h hrt hre]
    refine ⟨rfl, rfl, ?_, ?_, rfl⟩
    · rw [show ({ runRetriedRequest w { st with access_token := some a }
          (some ("Bearer " ++ a)) with refreshCalls := 1, retryCalls := 1 } : RunResult).store
        = (runRetriedRequest w { st with access_token := some a }
          (some ("Bearer " ++ a))).store from rfl]
      rw [runRetriedRequest_store]
    · rw [show ({ runRetriedRequest w { st with access_token := some a }
          (some ("Bearer " ++ a)) with refreshCalls := 1, retryCalls := 1 } : RunResult).retryAuthHeader
        = (runRetriedRequest w { st with access_token := some a }
          (some ("Bearer " ++ a))).retryAuthHeader from rfl]
      rw [runRetriedRequest_retryAuthHeader]
  · intro w2 st2
    by_cases h1 : isHttpSuccess (w2.status 0)
    · simp [runRequest, h1]
    · by_cases h2 : w2.status 0 = 401
      · cases hrt : st2.refresh_token with
        | none => simp [runRequest, h1, h2, hrt, isHttpSuccess_401]
        | some rt =>
          cases hre : w2.refresh rt with
          | error e => simp [runRequest, h1, h2, hrt, hre, isHttpSuccess_401]
          | ok a =>
            simp [runRequest, h1, h2, hrt, hre, isHttpSuccess_401,
              runRetriedRequest_refreshCalls]
      · simp [runRequest, h1, h2]

/-- Concrete world for exercising the refresh-success path: the first send
gets a 401, every later send a 200, and the refresh endpoint succeeds. -/
def wOkRefresh : World :=
  ⟨fun n => if n = 0 then 401 else 200, fun _ => .ok "newAccess"⟩

/-- Storage holding a stale access token and a refresh token. -/
def stWithTokens : Storage := ⟨some "oldAccess", some "refTok", none⟩

theorem tokenRefresh_single_attempt_witness :
    (runRequest wOkRefresh stWithTokens).refreshCalls = 1
    ∧ (runRequest wOkRefresh stWithTokens).retryCalls = 1
    ∧ (runRequest wOkRefresh stWithTokens).store.access_token = some "newAccess"
    ∧ (runRequest wOkRefresh stWithTokens).retryFlag = true := by
  have h := tokenRefresh_single_attempt wOkRefresh stWithTokens rfl
  have h3 := h.2.2.1 "refTok" "newAccess" rfl rfl
  exact ⟨h3.1, h3.2.1, h3.2.2.1, h.1⟩

/-- C2: when the 401-triggered refresh call itself fails, the interceptor
removes all three stored credential keys, redirects to the login entry
point, and propagates the refresh error rather than the original 401. -/
theorem refreshFailure_clears_and_redirects (w : World) (st : Storage) (rt e : String)
    (h : w.status 0 = 401) (hrt : st.refresh_token = some rt)
    (hre : w.refresh rt = .error e) :
    (runRequest w st).store = clearedStorage
    ∧ (runRequest w st).store.access_token = none
    ∧ (runRequest w st).store.refresh_token = none
    ∧ (runRequest w st).store.user = none
    ∧ (runRequest w st).redirectedToLogin = true
    ∧ (runRequest w st).outcome = .refreshError e
    ∧ (runRequest w st).outcome ≠ .httpError 401 := by
  rw [runRequest_of_401_refreshErr w st rt e h hrt hre]
  refine ⟨rfl, rfl, rfl, rfl, rfl, rfl, ?_⟩
  intro hc
  exact Outcome.noConfusion hc

/-- Concrete world whose refresh endpoint rejects. -/
def wFailRefresh : World := ⟨fun _ => 401, fun _ => .error "token_not_valid"⟩

/-- Storage with a full credential set, about to be cleared. -/
def stFullCreds : Storage :=
  ⟨some "staleAccess", some "staleRefresh", some ⟨1, "alice", "a@example.com", "A", "L"⟩⟩

theorem refreshFailure_clears_and_redirects_witness :
    (runRequest wFailRefresh stFullCreds).store = clearedStorage
    ∧ (runRequest wFailRefresh stFullCreds).redirectedToLogin = true
    ∧ (runRequest wFailRefresh stFullCreds).outcome = .refreshError "token_not_valid" := by
  have h := refreshFailure_clears_and_redirects wFailRefresh stFullCreds
    "staleRefresh" "token_not_valid" rfl rfl rfl
  exact ⟨h.1, h.2.2.2.2.1, h.2.2.2.2.2.1⟩

/-- A listed file with a given id. -/
def sampleFile (n : Nat) : FileAsset := ⟨n, "file", "pdf", 100, .ready, .complete⟩

/-- C3 counterexample: start from files {1, 2} with both selected; a reload
fetches only file 2 (file 1 is gone server-side).  `loadFiles` replaces the
file list but touches no selection state, so id 1 stays selected while no
listed file carries it — the selection is not a subset of the listed ids and
nothing was pruned by the reload. -/
theorem selectionPruning_counterexample :
    1 ∈ (loadFilesApply ⟨[sampleFile 2], 1, 1, 20, 1⟩
          ⟨[sampleFile 1, sampleFile 2], 1, [1, 2]⟩).selectedFiles
    ∧ 1 ∉ ((loadFilesApply ⟨[sampleFile 2], 1, 1, 20, 1⟩
          ⟨[sampleFile 1, sampleFile 2], 1, [1, 2]⟩).files.map FileAsset.id) := by
  decide

/-- C3 (amended): a reload leaves the selection unchanged (no pruning); a
confirmed deletion prunes exactly the deleted id from the selection, so that
id is never selected afterwards. -/
theorem selectionPruning_amended (fileId : Nat) (resp : FileListResponse)
    (s : FileViewState) :
    (loadFilesApply resp s).selectedFiles = s.selectedFiles
    ∧ (confirmDeleteApply fileId resp s).selectedFiles
        = s.selectedFiles.filter (fun i => i != fileId)
    ∧ fileId ∉ (confirmDeleteApply fileId resp s).selectedFiles := by
  refine ⟨rfl, rfl, ?_⟩
  simp [confirmDeleteApply, loadFilesApply, handleFileDelete, List.mem_filter]

/-- A reveal task mid-flight: a 40-character reply, none of it shown yet. -/
def c4Task : StreamTask :=
  ⟨"The assistant reply being revealed here.".toList, 5, 0⟩

/-- The assistant placeholder message the reveal writes into. -/
def c4Assistant : Message := ⟨5, .assistant, [], [], [], "t0"⟩

/-- ChatInterface mounted, mid-reveal. -/
def c4Component : ChatComponent := ⟨true, [c4Assistant], some c4Task⟩

/-- C4 evaluated at the failing input: unmounting ChatInterface mid-reveal
leaves the reveal interval scheduled (no effect cleanup clears it), and the
next tick still mutates the message sequence of the disposed component. -/
theorem streamingTimer_survives_unmount :
    (unmountChatInterface c4Component).streamingInterval = some c4Task
    ∧ (applyStreamTick (unmountChatInterface c4Component)).messages
        ≠ (unmountChatInterface c4Component).messages := by
  constructor
  · rfl
  · decide

/-- C5 counterexample: a file that is both oversized and of a disallowed
MIME type gets the size error, not a type error — the size check returns
first — refuting the claim's second universal as stated. -/
theorem uploadValidation_counterexample :
    allowedTypes.contains "application/zip" = false
    ∧ (handleFileValidation (10 * 1024 * 1024 + 1) "application/zip").networkAttempted = false
    ∧ (handleFileValidation (10 * 1024 * 1024 + 1) "application/zip").reportedError
        ≠ some typeErrorText := by
  refine ⟨by decide, by decide, ?_⟩
  decide

/-- C5 (amended): an oversized file is rejected with exactly the size error
and no network activity; a file within the size limit whose MIME type is off
the allow-list is rejected with the type error and no network activity (when
both violations hold, the size error takes precedence). -/
theorem uploadValidation_rejects (size : Nat) (mime : String)
    (hs : size > maxUploadSize ∨ (size ≤ maxUploadSize ∧ allowedTypes.contains mime = false)) :
    (size > maxUploadSize →
      handleFileValidation size mime = ⟨some sizeErrorText, false⟩)
    ∧ (size ≤ maxUploadSize → allowedTypes.contains mime = false →
      handleFileValidation size mime = ⟨some typeErrorText, false⟩)
    ∧ (handleFileValidation size mime).networkAttempted = false := by
  refine ⟨?_, ?_, ?_⟩
  · intro hbig
    simp [handleFileValidation, hbig]
  · intro hsmall hmime
    have hnot : ¬ size > maxUploadSize := by omega
    simp only [handleFileValidation]
    rw [if_neg hnot, hmime]
    rfl
  · rcases hs with hbig | ⟨hsmall, hmime⟩
    · simp [handleFileValidation, hbig]
    · have hnot : ¬ size > maxUploadSize := by omega
      simp only [handleFileValidation]
      rw [if_neg hnot, hmime]
      rfl

theorem uploadValidation_rejects_witness :
    handleFileValidation (10 * 1024 * 1024 + 1) "application/pdf"
      = ⟨some sizeErrorText, false⟩
    ∧ handleFileValidation 4 "application/zip" = ⟨some typeErrorText, false⟩ := by
  constructor
  · exact (uploadValidation_rejects (10 * 1024 * 1024 + 1) "application/pdf"
      (Or.inl (by norm_num [maxUploadSize]))).1 (by norm_num [maxUploadSize])
  · exact (uploadValidation_rejects 4 "application/zip"
      (Or.inr ⟨by norm_num [maxUploadSize], by decide⟩)).2.1
      (by norm_num [maxUploadSize]) (by decide)

lemma filter_ne_id_eq_self (l : List Message) (i : Nat) (h : i ∉ l.map Message.id) :
    l.filter (fun m => m.id != i) = l := by
  apply List.filter_eq_self.mpr
  intro m hm
  simp only [bne_iff_ne, ne_eq]
  intro he
  exact h (he ▸ List.mem_map_of_mem Message.id hm)

/-- C6: on a successful send, the temporary id is gone from the final
sequence — the optimistic message is removed by id and replaced by the
server-confirmed user message — the net effect on the pre-send sequence is
appending exactly one user and one assistant message, and a returned
conversation id differing from the tracked one is adopted with the
collaborator notified. -/
theorem sendSuccess_reconciles (prev : List Message) (temp : Message) (resp : ChatResponse)
    (cur : Option Nat)
    (hfresh : temp.id ∉ prev.map Message.id)
    (hm : resp.message.id ≠ temp.id)
    (hr : resp.response.id ≠ temp.id)
    (hum : resp.message.role = .user)
    (har : resp.response.role = .assistant) :
    handleSendSuccess prev temp resp
      = prev ++ [resp.message, { resp.response with citations := resp.citations, content := [] }]
    ∧ temp.id ∉ (handleSendSuccess prev temp resp).map Message.id
    ∧ ((handleSendSuccess prev temp resp).filter (fun m => m.role == Role.user)).length
        = (prev.filter (fun m => m.role == Role.user)).length + 1
    ∧ ((handleSendSuccess prev temp resp).filter (fun m => m.role == Role.assistant)).length
        = (prev.filter (fun m => m.role == Role.assistant)).length + 1
    ∧ (some resp.conversation_id ≠ cur →
        adoptConversation cur resp.conversation_id = (some resp.conversation_id, true))
    ∧ (some resp.conversation_id = cur →
        adoptConversation cur resp.conversation_id = (cur, false)) := by
  have hkey : handleSendSuccess prev temp resp
      = prev ++ [resp.message, { resp.response with citations := resp.citations, content := [] }] := by
    unfold handleSendSuccess
    simp only [List.filter_append]
    rw [filter_ne_id_eq_self prev temp.id hfresh]
    simp
  refine ⟨hkey, ?_, ?_, ?_, ?_, ?_⟩
  · rw [hkey]
    intro hmem
    rw [List.map_append] at hmem
    rcases List.mem_append.mp hmem with h1 | h2
    · exact hfresh h1
    · simp only [List.map_cons, List.map_nil, List.mem_cons, List.not_mem_nil, or_false] at h2
      rcases h2 with h2 | h2
      · exact hm h2.symm
      · exact hr h2.symm
  · rw [hkey]
    simp [List.filter_append, hum, har]
  · rw [hkey]
    simp [List.filter_append, hum, har]
  · intro hne
    simp only [adoptConversation, if_neg hne]
  · intro heq
    simp only [adoptConversation, if_pos heq]

/-- Temporary optimistic user message with a client-generated id. -/
def c6Temp : Message := ⟨1000, .user, "hi".toList, [], [], "t1"⟩

/-- A successful chat response creating conversation 7. -/
def c6Resp : ChatResponse :=
  ⟨7, ⟨2, .user, "hi".toList, [], [], "t2"⟩,
      ⟨3, .assistant, "hello there".toList, [], [], "t3"⟩, []⟩

theorem sendSuccess_reconciles_witness :
    handleSendSuccess [] c6Temp c6Resp
      = [c6Resp.message, { c6Resp.response with citations := c6Resp.citations, content := [] }]
    ∧ adoptConversation none c6Resp.conversation_id = (some 7, true) := by
  have h := sendSuccess_reconciles [] c6Temp c6Resp none
    (by decide) (by decide) (by decide) rfl rfl
  exact ⟨h.1, h.2.2.2.2.1 (by decide)⟩

/-- C7: on a failed send, the optimistic temporary message is removed and a
single assistant message with exactly the fixed apology text is appended;
the state update never reads the caught error (the function does not even
take it), so every resulting message is either a pre-send message or the
fixed apology. -/
theorem sendFailure_fixed_apology (prev : List Message) (temp : Message)
    (errId : Nat) (errCreated : String)
    (hfresh : temp.id ∉ prev.map Message.id)
    (hrole : temp.role = .user) :
    handleSendFailure prev temp errId errCreated
      = prev ++ [⟨errId, .assistant, errorAssistantText, [], [], errCreated⟩]
    ∧ temp ∉ handleSendFailure prev temp errId errCreated
    ∧ ∀ m ∈ handleSendFailure prev temp errId errCreated,
        m ∈ prev ∨ (m.role = .assistant ∧ m.content = errorAssistantText) := by
  have hkey : handleSendFailure prev temp errId errCreated
      = prev ++ [⟨errId, .assistant, errorAssistantText, [], [], errCreated⟩] := by
    unfold handleSendFailure
    simp only [List.filter_append]
    rw [filter_ne_id_eq_self prev temp.id hfresh]
    simp
  refine ⟨hkey, ?_, ?_⟩
  · rw [hkey]
    intro hmem
    rcases List.mem_append.mp hmem with h1 | h2
    · exact hfresh (List.mem_map_of_mem Message.id h1)
    · simp only [List.mem_cons, List.not_mem_nil, or_false] at h2
      have hra : temp.role = .assistant := by rw [h2]
      rw [hrole] at hra
      exact Role.noConfusion hra
  · rw [hkey]
    intro m hmem
    rcases List.mem_append.mp hmem with h1 | h2
    · exact Or.inl h1
    · simp only [List.mem_cons, List.not_mem_nil, or_false] at h2
      right
      rw [h2]
      exact ⟨rfl, rfl⟩

/-- Pre-send sequence and optimistic message for the failure witness. -/
def c7Temp : Message := ⟨2000, .user, "question".toList, [3], [], "t4"⟩

theorem sendFailure_fixed_apology_witness :
    handleSendFailure [] c7Temp 2001 "t5"
      = [⟨2001, .assistant, errorAssistantText, [], [], "t5"⟩]
    ∧ c7Temp ∉ handleSendFailure [] c7Temp 2001 "t5" := by
  have h := sendFailure_fixed_apology [] c7Temp 2001 "t5" (by decide) rfl
  exact ⟨h.1, h.2.1⟩

/-! Arithmetic of the pseudo-streaming reveal. -/

lemma streamStep_pos (len : Nat) : 0 < streamStep len := by
  unfold streamStep
  omega

lemma revealIndex_closed (len t : Nat) :
    revealIndex len t = min len (t * streamStep len) := by
  induction t with
  | zero => simp [revealIndex]
  | succ t ih =>
    rw [revealIndex, ih, Nat.succ_mul]
    generalize t * streamStep len = a
    omega

lemma ceil_ticks_reach (len : Nat) (hlen : 0 < len) :
    len ≤ streamTicksToComplete len * streamStep len := by
  have hpos : 0 < streamStep len := streamStep_pos len
  unfold streamTicksToComplete
  generalize streamStep len = s at hpos ⊢
  have h1 : len + s - 1 = (len - 1) + s := by omega
  rw [h1, Nat.add_div_right _ hpos]
  have h2 : len - 1 < ((len - 1) / s + 1) * s :=
    (Nat.div_lt_iff_lt_mul hpos).mp (Nat.lt_succ_self _)
  have h3 : len - 1 + 1 ≤ ((len - 1) / s + 1) * s := h2
  rw [Nat.sub_add_cancel hlen] at h3
  exact h3

/-- C8: for a non-empty reply of length L, each tick advances the revealed
index by step = max(10, L / 30) capped at L, the content shown after any
number of ticks is a prefix of the full text, and after the ceiling of
L / step ticks the full text is shown and the timer has cancelled itself. -/
theorem pseudoStream_reveals_prefixes (fullText : List Char) (h : fullText ≠ []) :
    (∀ t, revealIndex fullText.length (t + 1)
        = min fullText.length (revealIndex fullText.length t + streamStep fullText.length))
    ∧ (∀ t, revealedText fullText t <+: fullText)
    ∧ revealedText fullText (streamTicksToComplete fullText.length) = fullText
    ∧ timerActiveAfter fullText.length (streamTicksToComplete fullText.length) = false := by
  have hlen : 0 < fullText.length := List.length_pos.mpr h
  have hfull : revealIndex fullText.length (streamTicksToComplete fullText.length)
      = fullText.length := by
    rw [revealIndex_closed]
    have hge := ceil_ticks_reach fullText.length hlen
    omega
  refine ⟨fun t => rfl, fun t => List.take_prefix _ _, ?_, ?_⟩
  · unfold revealedText
    rw [hfull, List.take_length]
  · unfold timerActiveAfter
    rw [hfull]
    simp

/-- A 24-character reply: step = max(10, 24/30) = 10, so the reveal takes
ceil(24/10) = 3 ticks. -/
def c8Text : List Char := "A short assistant reply.".toList

theorem pseudoStream_reveals_prefixes_witness :
    revealedText c8Text (streamTicksToComplete c8Text.length) = c8Text
    ∧ timerActiveAfter c8Text.length (streamTicksToComplete c8Text.length) = false := by
  have h := pseudoStream_reveals_prefixes c8Text (by decide)
  exact ⟨h.2.2.1, h.2.2.2⟩

/-- C9: after a successful login the storage holds the returned access
token, refresh token and user profile; isAuthenticated is true, and in
general equals the bare presence check of the access token; checkAuth
re-derives the same user and flag from the storage alone, and its effect
trace contains no network call. -/
theorem loginPersists_and_checkAuth (resp : AuthResponse) (st : Storage) :
    (authServiceLogin resp st).2.access_token = some resp.tokens.access
    ∧ (authServiceLogin resp st).2.refresh_token = some resp.tokens.refresh
    ∧ (authServiceLogin resp st).2.user = some resp.user
    ∧ (authServiceLogin resp st).1 = resp
    ∧ isAuthenticated (authServiceLogin resp st).2 = true
    ∧ checkAuth (authServiceLogin resp st).2 = ⟨some resp.user, true⟩
    ∧ (∀ st0 : Storage, isAuthenticated st0 = st0.access_token.isSome)
    ∧ (∀ ep : String, Effect.network ep ∉ checkAuthEffects) := by
  refine ⟨rfl, rfl, rfl, rfl, rfl, rfl, fun st0 => rfl, ?_⟩
  intro ep
  simp [checkAuthEffects]

/-- C10: a failed conversation-history load leaves the message sequence and
the tracked conversation id exactly as they were; in particular no error
message is appended. -/
theorem historyLoadFailure_preserves_state (e : String) (convId : Nat) (s : ChatState) :
    loadConversationHistory (.error e) convId s = s
    ∧ (loadConversationHistory (.error e) convId s).messages = s.messages
    ∧ (loadConversationHistory (.error e) convId s).currentConversationId
        = s.currentConversationId :=
  ⟨rfl, rfl, rfl⟩

end RagFrontend
